import Mathlib

/-!
Shallow embedding of the configuration-reconciliation logic of the
Cli-Proxy-API management console (src/src/pages/RoutingPage.tsx,
src/src/pages/RateLimitsPage.tsx and the type declarations in
src/src/types).  Each handler of the two pages becomes a pure function
from the page state (and, for fallible remote calls, a flag describing
the remote outcome) to the new page state together with the list of
network requests issued and the notifications shown.
-/

namespace CliProxy

/-- A JavaScript number produced by parseInt: none models NaN. -/
abbrev JsNumber := Option Int

/-- JavaScript String.prototype.trim: strip leading and trailing
whitespace.  Defined by structural recursion over the character list so
that it evaluates inside the kernel. -/
def jsTrim (s : String) : String :=
  String.mk
    (((s.toList.dropWhile Char.isWhitespace).reverse.dropWhile
        Char.isWhitespace).reverse)

/-- Numeric value of a list of decimal digit characters. -/
def digitsVal (ds : List Char) : Int :=
  ds.foldl (fun a c => a * 10 + ((c.toNat - '0'.toNat : Nat) : Int)) 0

/-- JavaScript parseInt(s, 10): strip whitespace, optional sign, then the
longest prefix of decimal digits; NaN (none) when no digit is found. -/
def jsParseInt (s : String) : JsNumber :=
  let cs := (jsTrim s).toList
  let signed : Int × List Char :=
    match cs with
    | '-' :: r => (-1, r)
    | '+' :: r => (1, r)
    | r => (1, r)
  let ds := signed.2.takeWhile Char.isDigit
  if ds.isEmpty then none else some (signed.1 * digitsVal ds)

/-- JavaScript Math.round on an (ideal, rational) number: round half up. -/
def jsRound (q : ℚ) : Int := ⌊q + 1 / 2⌋

/-- JavaScript `x || d` for an optional number x: d when x is undefined or 0. -/
def jsOrDefaultNum (x : Option Int) (d : Int) : Int :=
  match x with
  | some v => if v = 0 then d else v
  | none => d

/-- Embedding of the JavaScript idiom xs.filter((_, i) => i !== index),
carrying the running element index explicitly. -/
def filterOutIdxAux {α : Type} (index : Int) : Int → List α → List α
  | _, [] => []
  | i, x :: xs =>
    if i = index then filterOutIdxAux index (i + 1) xs
    else x :: filterOutIdxAux index (i + 1) xs

/-- xs.filter((_, i) => i !== index), indices starting at 0. -/
def filterOutIdx {α : Type} (xs : List α) (index : Int) : List α :=
  filterOutIdxAux index 0 xs

/-- Embedding of xs.map((x, i) => i === index ? a : x). -/
def replaceAtIdxAux {α : Type} (index : Int) (a : α) : Int → List α → List α
  | _, [] => []
  | i, x :: xs => (if i = index then a else x) :: replaceAtIdxAux index a (i + 1) xs

/-- xs.map((x, i) => i === index ? a : x), indices starting at 0. -/
def replaceAtIdx {α : Type} (xs : List α) (index : Int) (a : α) : List α :=
  replaceAtIdxAux index a 0 xs

/-! ## Domain types (src/src/types/routing.ts, src/src/types/rateLimits.ts) -/

structure AuthPriorityPattern where
  pattern : String
  deriving Repr, DecidableEq

structure PriorityRule where
  models : List String
  order : List AuthPriorityPattern
  fallback : Option Bool
  deriving Repr, DecidableEq

structure AuthBinding where
  api_key : String
  auth_ids : List String
  fallback : Option Bool
  deriving Repr, DecidableEq

inductive RoutingStrategy
  | round_robin
  | fill_first
  deriving Repr, DecidableEq

structure ApiKeyLimits where
  requests_per_day : Option JsNumber
  requests_per_month : Option JsNumber
  tokens_per_day : Option JsNumber
  tokens_per_month : Option JsNumber
  deriving Repr, DecidableEq

structure ApiKeyConfig where
  key : String
  limits : Option ApiKeyLimits
  allowed_providers : Option (List String)
  auth_ids : Option (List String)
  deriving Repr, DecidableEq

structure RateLimitingConfig where
  enabled : Bool
  exceeded_status_code : Option Int
  persistence_path : Option String
  deriving Repr, DecidableEq

structure ApiKeyUsage where
  requests_today : Int
  requests_month : Int
  tokens_today : Int
  tokens_month : Int
  deriving Repr, DecidableEq

structure ApiKeyConfigsResponse where
  api_key_configs : Option (List ApiKeyConfig)
  deriving Repr, DecidableEq

structure ApiKeyUsageResponse where
  usage : Option (List (String × ApiKeyUsage))
  deriving Repr, DecidableEq

/-! ## Effects: requests issued and notifications shown by a handler -/

inductive NoticeKind
  | success
  | error
  deriving Repr, DecidableEq

/-- A toast notification; message is the i18n key used by the source. -/
structure Notice where
  message : String
  kind : NoticeKind
  deriving Repr, DecidableEq

inductive Request
  | putStrategy (s : RoutingStrategy)
  | postPriority (r : PriorityRule)
  | putPriority (index : Int) (r : PriorityRule)
  | deletePriority (index : Int)
  | postBinding (b : AuthBinding)
  | putBinding (index : Int) (b : AuthBinding)
  | deleteBinding (index : Int)
  | postConfig (c : ApiKeyConfig)
  | putConfig (key : String) (c : ApiKeyConfig)
  | deleteConfig (key : String)
  | putRateLimiting (c : RateLimitingConfig)
  deriving Repr, DecidableEq

/-- Outcome of running one event handler: the new page state, the network
requests issued, and the notifications shown. -/
structure HandlerResult (σ : Type) where
  state : σ
  requests : List Request
  notices : List Notice
  deriving Repr

/-! ## RoutingPage (src/src/pages/RoutingPage.tsx) -/

namespace RoutingPage

structure RuleFormData where
  models : List String
  order : List String
  fallback : Bool
  deriving Repr, DecidableEq

def emptyRuleForm : RuleFormData :=
  { models := [], order := [], fallback := true }

structure BindingFormData where
  apiKey : String
  authIds : List String
  fallback : Bool
  deriving Repr, DecidableEq

def emptyBindingForm : BindingFormData :=
  { apiKey := "", authIds := [], fallback := true }

/-- The two tag-list fields of the rule form. -/
inductive RuleTagField
  | models
  | order
  deriving Repr, DecidableEq

def RuleFormData.tagList (f : RuleFormData) : RuleTagField → List String
  | .models => f.models
  | .order => f.order

def RuleFormData.setTagList (f : RuleFormData) : RuleTagField → List String → RuleFormData
  | .models, l => { f with models := l }
  | .order, l => { f with order := l }

/-- The component state of RoutingPage (the useState hooks). -/
structure State where
  strategy : RoutingStrategy
  rules : List PriorityRule
  bindings : List AuthBinding
  saving : Bool
  modalOpen : Bool
  editingIndex : Option Nat
  formData : RuleFormData
  modelInput : String
  orderInput : String
  bindingModalOpen : Bool
  editingBindingIndex : Option Nat
  bindingFormData : BindingFormData
  authIdInput : String
  deriving Repr

/-- handleAddTag: trims the pending value; returns early when blank,
otherwise appends when not already present and clears the input buffer.
Result: the new form data and the new content of the input buffer. -/
def handleAddTag (f : RuleFormData) (field : RuleTagField) (value : String) :
    RuleFormData × String :=
  let trimmed := jsTrim value
  if trimmed = "" then (f, value)
  else
    let f' :=
      if trimmed ∈ f.tagList field then f
      else f.setTagList field (f.tagList field ++ [trimmed])
    (f', "")

/-- handleRemoveTag: prev[field].filter((_, i) => i !== index). -/
def handleRemoveTag (f : RuleFormData) (field : RuleTagField) (index : Int) :
    RuleFormData :=
  f.setTagList field (filterOutIdx (f.tagList field) index)

def closeModal (st : State) : State :=
  { st with modalOpen := false, formData := emptyRuleForm, editingIndex := none }

def closeBindingModal (st : State) : State :=
  { st with
      bindingModalOpen := false
      bindingFormData := emptyBindingForm
      editingBindingIndex := none }

/-- handleStrategyChange: no-op when the strategy is unchanged or controls
are disabled; otherwise PUT the new strategy and commit it on success. -/
def handleStrategyChange (connected : Bool) (st : State)
    (newStrategy : RoutingStrategy) (remoteOk : Bool) : HandlerResult State :=
  if newStrategy = st.strategy ∨ connected = false then
    { state := st, requests := [], notices := [] }
  else if remoteOk then
    { state := { st with strategy := newStrategy, saving := false }
      requests := [.putStrategy newStrategy]
      notices := [{ message := "routing.strategy_updated", kind := .success }] }
  else
    { state := { st with saving := false }
      requests := [.putStrategy newStrategy]
      notices := [{ message := "notification.update_failed", kind := .error }] }

/-- handleSave of the rule form: validation guard on empty order, then
POST (add) or PUT at editingIndex (edit); local list reconciled only on
remote success; the modal is closed only on success. -/
def handleSave (st : State) (remoteOk : Bool) : HandlerResult State :=
  if st.formData.order.length = 0 then
    { state := st, requests := []
      notices := [{ message := "routing.order_required", kind := .error }] }
  else
    let rule : PriorityRule :=
      { models := st.formData.models
        order := st.formData.order.map (fun pattern => { pattern := pattern })
        fallback := some st.formData.fallback }
    match st.editingIndex with
    | some i =>
      if remoteOk then
        { state := closeModal
            { st with rules := replaceAtIdx st.rules (i : Int) rule, saving := false }
          requests := [.putPriority (i : Int) rule]
          notices := [{ message := "routing.rule_updated", kind := .success }] }
      else
        { state := { st with saving := false }
          requests := [.putPriority (i : Int) rule]
          notices := [{ message := "notification.update_failed", kind := .error }] }
    | none =>
      if remoteOk then
        { state := closeModal
            { st with rules := st.rules ++ [rule], saving := false }
          requests := [.postPriority rule]
          notices := [{ message := "routing.rule_added", kind := .success }] }
      else
        { state := { st with saving := false }
          requests := [.postPriority rule]
          notices := [{ message := "notification.update_failed", kind := .error }] }

/-- handleDelete of a priority rule: gated by window.confirm; DELETE at
index; the local list drops the element only when the remote succeeds. -/
def handleDelete (st : State) (index : Int) (confirmed : Bool) (remoteOk : Bool) :
    HandlerResult State :=
  if confirmed = false then { state := st, requests := [], notices := [] }
  else if remoteOk then
    { state := { st with rules := filterOutIdx st.rules index, saving := false }
      requests := [.deletePriority index]
      notices := [{ message := "routing.rule_deleted", kind := .success }] }
  else
    { state := { st with saving := false }
      requests := [.deletePriority index]
      notices := [{ message := "notification.delete_failed", kind := .error }] }

/-- handleAddAuthId of the binding form (same tag-editor logic). -/
def handleAddAuthId (f : BindingFormData) (value : String) : BindingFormData × String :=
  let trimmed := jsTrim value
  if trimmed = "" then (f, value)
  else
    let f' :=
      if trimmed ∈ f.authIds then f
      else { f with authIds := f.authIds ++ [trimmed] }
    (f', "")

/-- handleSaveBinding: validation guards on blank api-key and empty
auth-ids, then POST (add) or PUT at editingBindingIndex (edit). -/
def handleSaveBinding (st : State) (remoteOk : Bool) : HandlerResult State :=
  if jsTrim st.bindingFormData.apiKey = "" then
    { state := st, requests := []
      notices := [{ message := "routing.binding_api_key_required", kind := .error }] }
  else if st.bindingFormData.authIds.length = 0 then
    { state := st, requests := []
      notices := [{ message := "routing.binding_auth_ids_required", kind := .error }] }
  else
    let binding : AuthBinding :=
      { api_key := jsTrim st.bindingFormData.apiKey
        auth_ids := st.bindingFormData.authIds
        fallback := some st.bindingFormData.fallback }
    match st.editingBindingIndex with
    | some i =>
      if remoteOk then
        { state := closeBindingModal
            { st with
                bindings := replaceAtIdx st.bindings (i : Int) binding
                saving := false }
          requests := [.putBinding (i : Int) binding]
          notices := [{ message := "routing.binding_updated", kind := .success }] }
      else
        { state := { st with saving := false }
          requests := [.putBinding (i : Int) binding]
          notices := [{ message := "notification.update_failed", kind := .error }] }
    | none =>
      if remoteOk then
        { state := closeBindingModal
            { st with bindings := st.bindings ++ [binding], saving := false }
          requests := [.postBinding binding]
          notices := [{ message := "routing.binding_added", kind := .success }] }
      else
        { state := { st with saving := false }
          requests := [.postBinding binding]
          notices := [{ message := "notification.update_failed", kind := .error }] }

/-- handleDeleteBinding: same shape as handleDelete, over the bindings list. -/
def handleDeleteBinding (st : State) (index : Int) (confirmed : Bool)
    (remoteOk : Bool) : HandlerResult State :=
  if confirmed = false then { state := st, requests := [], notices := [] }
  else if remoteOk then
    { state := { st with bindings := filterOutIdx st.bindings index, saving := false }
      requests := [.deleteBinding index]
      notices := [{ message := "routing.binding_deleted", kind := .success }] }
  else
    { state := { st with saving := false }
      requests := [.deleteBinding index]
      notices := [{ message := "notification.delete_failed", kind := .error }] }

end RoutingPage

/-! ## RateLimitsPage (src/src/pages/RateLimitsPage.tsx) -/

namespace RateLimitsPage

structure ConfigFormData where
  key : String
  requestsPerDay : String
  requestsPerMonth : String
  tokensPerDay : String
  tokensPerMonth : String
  allowedProviders : List String
  authIds : List String
  deriving Repr, DecidableEq

def emptyConfigForm : ConfigFormData :=
  { key := "", requestsPerDay := "", requestsPerMonth := ""
    tokensPerDay := "", tokensPerMonth := ""
    allowedProviders := [], authIds := [] }

/-- The two tag-list fields of the key-config form. -/
inductive ConfigTagField
  | allowedProviders
  | authIds
  deriving Repr, DecidableEq

def ConfigFormData.tagList (f : ConfigFormData) : ConfigTagField → List String
  | .allowedProviders => f.allowedProviders
  | .authIds => f.authIds

def ConfigFormData.setTagList (f : ConfigFormData) :
    ConfigTagField → List String → ConfigFormData
  | .allowedProviders, l => { f with allowedProviders := l }
  | .authIds, l => { f with authIds := l }

/-- The component state of RateLimitsPage (the useState hooks). -/
structure State where
  configs : List ApiKeyConfig
  rateLimiting : RateLimitingConfig
  usage : List (String × ApiKeyUsage)
  error : String
  saving : Bool
  modalOpen : Bool
  editingKey : Option String
  formData : ConfigFormData
  providerInput : String
  authIdInput : String
  statusCodeInput : String
  persistencePathInput : String
  deriving Repr

/-- loadData: the three fetches run concurrently, each with its own catch
substituting a default; the aggregated result overwrites the data slices.
A parameter none models that slice's fetch failing. -/
def loadData (configsRes : Option ApiKeyConfigsResponse)
    (rateLimitingRes : Option RateLimitingConfig)
    (usageRes : Option ApiKeyUsageResponse) (st : State) : State :=
  let c := configsRes.getD { api_key_configs := some [] }
  let r := rateLimitingRes.getD
    { enabled := true, exceeded_status_code := none, persistence_path := none }
  let u := usageRes.getD { usage := some [] }
  { st with
      error := ""
      configs := c.api_key_configs.getD []
      rateLimiting := r
      statusCodeInput := toString (jsOrDefaultNum r.exceeded_status_code 429)
      persistencePathInput := r.persistence_path.getD ""
      usage := u.usage.getD [] }

/-- handleToggleEnabled: gated by disableControls; PUT the spread of the
current rateLimiting state with enabled flipped; on success only the
enabled field of the local rateLimiting state is updated. -/
def handleToggleEnabled (connected : Bool) (st : State) (remoteOk : Bool) :
    HandlerResult State :=
  if connected = false then { state := st, requests := [], notices := [] }
  else
    let newEnabled := !st.rateLimiting.enabled
    let payload := { st.rateLimiting with enabled := newEnabled }
    if remoteOk then
      { state := { st with
            rateLimiting := { st.rateLimiting with enabled := newEnabled }
            saving := false }
        requests := [.putRateLimiting payload]
        notices := [{ message := "rate_limits.settings_updated", kind := .success }] }
    else
      { state := { st with saving := false }
        requests := [.putRateLimiting payload]
        notices := [{ message := "notification.update_failed", kind := .error }] }

/-- handleAddTag of the key-config form (same tag-editor logic as
RoutingPage.handleAddTag, over allowedProviders / authIds). -/
def handleAddTag (f : ConfigFormData) (field : ConfigTagField) (value : String) :
    ConfigFormData × String :=
  let trimmed := jsTrim value
  if trimmed = "" then (f, value)
  else
    let f' :=
      if trimmed ∈ f.tagList field then f
      else f.setTagList field (f.tagList field ++ [trimmed])
    (f', "")

/-- handleRemoveTag: prev[field].filter((_, i) => i !== index). -/
def handleRemoveTag (f : ConfigFormData) (field : ConfigTagField) (index : Int) :
    ConfigFormData :=
  f.setTagList field (filterOutIdx (f.tagList field) index)

/-- The limits object built field by field in handleSave: a field is set
exactly when its raw input string is truthy (non-empty). -/
def buildLimits (f : ConfigFormData) : ApiKeyLimits :=
  { requests_per_day :=
      if f.requestsPerDay ≠ "" then some (jsParseInt f.requestsPerDay) else none
    requests_per_month :=
      if f.requestsPerMonth ≠ "" then some (jsParseInt f.requestsPerMonth) else none
    tokens_per_day :=
      if f.tokensPerDay ≠ "" then some (jsParseInt f.tokensPerDay) else none
    tokens_per_month :=
      if f.tokensPerMonth ≠ "" then some (jsParseInt f.tokensPerMonth) else none }

/-- Object.keys(limits).length for the incrementally built limits object. -/
def limitsKeyCount (l : ApiKeyLimits) : Nat :=
  (if l.requests_per_day.isSome then 1 else 0) +
  (if l.requests_per_month.isSome then 1 else 0) +
  (if l.tokens_per_day.isSome then 1 else 0) +
  (if l.tokens_per_month.isSome then 1 else 0)

/-- The ApiKeyConfig submitted by handleSave: trimmed key, limits omitted
when no limit field was provided, tag lists omitted when empty. -/
def configOfForm (f : ConfigFormData) : ApiKeyConfig :=
  let limits := buildLimits f
  { key := jsTrim f.key
    limits := if limitsKeyCount limits > 0 then some limits else none
    allowed_providers :=
      if f.allowedProviders.length > 0 then some f.allowedProviders else none
    auth_ids := if f.authIds.length > 0 then some f.authIds else none }

def closeModal (st : State) : State :=
  { st with modalOpen := false, formData := emptyConfigForm, editingKey := none }

/-- handleSave of the key-config form: validation guard on blank key, then
PUT at the (truthy) editingKey or POST a new config; local list
reconciled by key equality on success. -/
def handleSave (st : State) (remoteOk : Bool) : HandlerResult State :=
  if jsTrim st.formData.key = "" then
    { state := st, requests := []
      notices := [{ message := "rate_limits.key_required", kind := .error }] }
  else
    let config := configOfForm st.formData
    let addResult : HandlerResult State :=
      if remoteOk then
        { state := closeModal { st with configs := st.configs ++ [config], saving := false }
          requests := [.postConfig config]
          notices := [{ message := "rate_limits.config_added", kind := .success }] }
      else
        { state := { st with saving := false }
          requests := [.postConfig config]
          notices := [{ message := "notification.update_failed", kind := .error }] }
    match st.editingKey with
    | some k =>
      if k = "" then addResult
      else if remoteOk then
        { state := closeModal
            { st with
                configs := st.configs.map (fun c => if c.key = k then config else c)
                saving := false }
          requests := [.putConfig k config]
          notices := [{ message := "rate_limits.config_updated", kind := .success }] }
      else
        { state := { st with saving := false }
          requests := [.putConfig k config]
          notices := [{ message := "notification.update_failed", kind := .error }] }
    | none => addResult

/-- getUsagePercent: 0 on falsy or zero limit, otherwise
Math.min(100, Math.round((used / limit) * 100)). -/
def getUsagePercent (used : ℚ) (limit : Option ℚ) : Int :=
  match limit with
  | none => 0
  | some l => if l = 0 then 0 else min 100 (jsRound (used / l * 100))

inductive UsageClass
  | high
  | medium
  | low
  deriving Repr, DecidableEq

/-- getUsageClass: high at 90 percent and above, medium at 70, else low. -/
def getUsageClass (percent : Int) : UsageClass :=
  if percent ≥ 90 then .high
  else if percent ≥ 70 then .medium
  else .low

end RateLimitsPage

/-! ## Concrete fixtures used to instantiate the theorems -/

def sampleRule (m : String) : PriorityRule :=
  { models := [m], order := [{ pattern := "p" }], fallback := some true }

def sampleBinding (k : String) : AuthBinding :=
  { api_key := k, auth_ids := ["u"], fallback := some true }

def sampleRoutingState : RoutingPage.State :=
  { strategy := .round_robin
    rules := [sampleRule "m1", sampleRule "m2", sampleRule "m3"]
    bindings := [sampleBinding "k1", sampleBinding "k2", sampleBinding "k3"]
    saving := false
    modalOpen := false
    editingIndex := none
    formData := RoutingPage.emptyRuleForm
    modelInput := ""
    orderInput := ""
    bindingModalOpen := false
    editingBindingIndex := none
    bindingFormData := RoutingPage.emptyBindingForm
    authIdInput := "" }

def sampleRateLimitsState : RateLimitsPage.State :=
  { configs := []
    rateLimiting :=
      { enabled := true, exceeded_status_code := some 429
        persistence_path := some "/var/counters" }
    usage := []
    error := ""
    saving := false
    modalOpen := false
    editingKey := none
    formData := RateLimitsPage.emptyConfigForm
    providerInput := ""
    authIdInput := ""
    statusCodeInput := "429"
    persistencePathInput := "" }

/-! ## Helper lemmas -/

theorem filterOutIdxAux_lt {α : Type} (xs : List α) (index : Int) :
    ∀ i : Int, index < i → filterOutIdxAux index i xs = xs := by
  induction xs with
  | nil => intro i _; rfl
  | cons x xs ih =>
    intro i h
    have hne : i ≠ index := by omega
    simp only [filterOutIdxAux, if_neg hne]
    rw [ih (i + 1) (by omega)]

theorem filterOutIdxAux_ge {α : Type} (xs : List α) (index : Int) :
    ∀ i : Int, i + xs.length ≤ index → filterOutIdxAux index i xs = xs := by
  induction xs with
  | nil => intro i _; rfl
  | cons x xs ih =>
    intro i h
    simp only [List.length_cons] at h
    have hne : i ≠ index := by push_cast at h; omega
    simp only [filterOutIdxAux, if_neg hne]
    rw [ih (i + 1) (by push_cast at h ⊢; omega)]

theorem filterOutIdxAux_erase {α : Type} (xs : List α) :
    ∀ (k : Nat) (i : Int), k < xs.length →
      filterOutIdxAux (i + k) i xs = xs.take k ++ xs.drop (k + 1) := by
  induction xs with
  | nil => intro k i h; simp at h
  | cons x xs ih =>
    intro k i h
    cases k with
    | zero =>
      simp only [Nat.cast_zero, add_zero, filterOutIdxAux, if_pos rfl]
      rw [filterOutIdxAux_lt xs i (i + 1) (by omega)]
      simp
    | succ k =>
      have hne : i ≠ i + ((k : Nat) + 1 : Nat) := by push_cast; omega
      simp only [filterOutIdxAux, if_neg hne]
      have harg : (i + ((k : Nat) + 1 : Nat) : Int) = (i + 1) + k := by push_cast; ring
      rw [harg, ih k (i + 1) (by simpa using Nat.lt_of_succ_lt_succ h)]
      simp [List.take_succ_cons, List.drop_succ_cons]

theorem filterOutIdx_in_range {α : Type} (xs : List α) (k : Nat) (h : k < xs.length) :
    filterOutIdx xs (k : Int) = xs.take k ++ xs.drop (k + 1) := by
  have := filterOutIdxAux_erase xs k 0 h
  simpa [filterOutIdx] using this

theorem filterOutIdx_out_of_range {α : Type} (xs : List α) (index : Int)
    (h : index < 0 ∨ (xs.length : Int) ≤ index) : filterOutIdx xs index = xs := by
  rcases h with h | h
  · exact filterOutIdxAux_lt xs index 0 (by omega)
  · exact filterOutIdxAux_ge xs index 0 (by omega)

theorem RoutingPage.ruleTagList_setTagList (f : RoutingPage.RuleFormData)
    (field : RoutingPage.RuleTagField) (l : List String) :
    (f.setTagList field l).tagList field = l := by
  cases field <;> rfl

theorem RoutingPage.ruleSetTagList_self (f : RoutingPage.RuleFormData)
    (field : RoutingPage.RuleTagField) :
    f.setTagList field (f.tagList field) = f := by
  cases field <;> rfl

theorem RateLimitsPage.configTagList_setTagList (f : RateLimitsPage.ConfigFormData)
    (field : RateLimitsPage.ConfigTagField) (l : List String) :
    (f.setTagList field l).tagList field = l := by
  cases field <;> rfl

theorem RateLimitsPage.configSetTagList_self (f : RateLimitsPage.ConfigFormData)
    (field : RateLimitsPage.ConfigTagField) :
    f.setTagList field (f.tagList field) = f := by
  cases field <;> rfl

theorem append_singleton_ne {α : Type} (l : List α) (t : α) : l ++ [t] ≠ l := by
  intro h
  have := congrArg List.length h
  simp at this

theorem jsRound_intCast (n : Int) : jsRound ((n : ℚ)) = n := by
  unfold jsRound
  rw [Int.floor_eq_iff]
  constructor
  · linarith
  · linarith

theorem jsRound_nonneg (q : ℚ) (h : 0 ≤ q) : 0 ≤ jsRound q := by
  unfold jsRound
  apply Int.le_floor.mpr
  push_cast
  linarith

/-! ## Claim theorems -/

/-- C1: For every ordered list of priority rules or bindings and every
in-range index, a confirmed delete at that index yields a local list equal
to the original with exactly the element at that position removed and the
relative order of all other elements preserved; when the remote operation
fails, the local list is left exactly as it was. -/
theorem claim_C1_delete_reconciliation :
    ∀ (st : RoutingPage.State) (k : Nat),
      (k < st.rules.length →
        ((RoutingPage.handleDelete st (k : Int) true true).state.rules =
            st.rules.take k ++ st.rules.drop (k + 1) ∧
          (RoutingPage.handleDelete st (k : Int) true false).state.rules = st.rules)) ∧
      (k < st.bindings.length →
        ((RoutingPage.handleDeleteBinding st (k : Int) true true).state.bindings =
            st.bindings.take k ++ st.bindings.drop (k + 1) ∧
          (RoutingPage.handleDeleteBinding st (k : Int) true false).state.bindings =
            st.bindings)) := by
  intro st k
  constructor
  · intro h
    constructor
    · simp [RoutingPage.handleDelete, filterOutIdx_in_range _ k h]
    · simp [RoutingPage.handleDelete]
  · intro h
    constructor
    · simp [RoutingPage.handleDeleteBinding, filterOutIdx_in_range _ k h]
    · simp [RoutingPage.handleDeleteBinding]

/-- Witness for C1: deleting at index 1 of the three-element sample lists. -/
theorem claim_C1_witness :
    ((RoutingPage.handleDelete sampleRoutingState ((1 : Nat) : Int) true
        true).state.rules =
      sampleRoutingState.rules.take 1 ++ sampleRoutingState.rules.drop 2) ∧
    ((RoutingPage.handleDelete sampleRoutingState ((1 : Nat) : Int) true
        false).state.rules = sampleRoutingState.rules) ∧
    ((RoutingPage.handleDeleteBinding sampleRoutingState ((1 : Nat) : Int) true
        true).state.bindings =
      sampleRoutingState.bindings.take 1 ++ sampleRoutingState.bindings.drop 2) ∧
    ((RoutingPage.handleDeleteBinding sampleRoutingState ((1 : Nat) : Int) true
        false).state.bindings = sampleRoutingState.bindings) := by
  obtain ⟨h1, h2⟩ := claim_C1_delete_reconciliation sampleRoutingState 1
  obtain ⟨ha, hb⟩ := h1 (by decide)
  obtain ⟨hc, hd⟩ := h2 (by decide)
  exact ⟨ha, hb, hc, hd⟩

/-- C3: For every form submit with an empty required field (rule form with
empty order, binding form with blank api-key or empty auth-ids, key-config
form with blank key), no remote request is issued, a user-facing
validation error is reported, and no local state other than the
notification changes. -/
theorem claim_C3_validation_no_submit :
    ∀ (st : RoutingPage.State) (st2 : RateLimitsPage.State) (ok : Bool),
      (st.formData.order.length = 0 →
        RoutingPage.handleSave st ok =
          { state := st, requests := []
            notices := [{ message := "routing.order_required", kind := .error }] }) ∧
      (jsTrim st.bindingFormData.apiKey = "" →
        RoutingPage.handleSaveBinding st ok =
          { state := st, requests := []
            notices :=
              [{ message := "routing.binding_api_key_required", kind := .error }] }) ∧
      (jsTrim st.bindingFormData.apiKey ≠ "" →
        st.bindingFormData.authIds.length = 0 →
        RoutingPage.handleSaveBinding st ok =
          { state := st, requests := []
            notices :=
              [{ message := "routing.binding_auth_ids_required", kind := .error }] }) ∧
      (jsTrim st2.formData.key = "" →
        RateLimitsPage.handleSave st2 ok =
          { state := st2, requests := []
            notices := [{ message := "rate_limits.key_required", kind := .error }] }) := by
  intro st st2 ok
  refine ⟨?_, ?_, ?_, ?_⟩
  · intro h
    simp [RoutingPage.handleSave, h]
  · intro h
    simp [RoutingPage.handleSaveBinding, h]
  · intro h h2
    simp [RoutingPage.handleSaveBinding, h, h2]
  · intro h
    simp [RateLimitsPage.handleSave, h]

/-- Witness for C3: the three validation failures at concrete states. -/
theorem claim_C3_witness :
    (RoutingPage.handleSave
        { sampleRoutingState with formData := ⟨["m"], [], true⟩ } true =
      { state := { sampleRoutingState with formData := ⟨["m"], [], true⟩ }
        requests := []
        notices := [{ message := "routing.order_required", kind := .error }] }) ∧
    (RoutingPage.handleSaveBinding
        { sampleRoutingState with bindingFormData := ⟨"  ", ["u"], true⟩ } true =
      { state := { sampleRoutingState with bindingFormData := ⟨"  ", ["u"], true⟩ }
        requests := []
        notices :=
          [{ message := "routing.binding_api_key_required", kind := .error }] }) ∧
    (RoutingPage.handleSaveBinding
        { sampleRoutingState with bindingFormData := ⟨"k", [], true⟩ } true =
      { state := { sampleRoutingState with bindingFormData := ⟨"k", [], true⟩ }
        requests := []
        notices :=
          [{ message := "routing.binding_auth_ids_required", kind := .error }] }) ∧
    (RateLimitsPage.handleSave
        { sampleRateLimitsState with
            formData := { RateLimitsPage.emptyConfigForm with key := " " } } true =
      { state := { sampleRateLimitsState with
          formData := { RateLimitsPage.emptyConfigForm with key := " " } }
        requests := []
        notices := [{ message := "rate_limits.key_required", kind := .error }] }) := by
  refine ⟨?_, ?_, ?_, ?_⟩
  · exact (claim_C3_validation_no_submit
      { sampleRoutingState with formData := ⟨["m"], [], true⟩ }
      sampleRateLimitsState true).1 (by decide)
  · exact (claim_C3_validation_no_submit
      { sampleRoutingState with bindingFormData := ⟨"  ", ["u"], true⟩ }
      sampleRateLimitsState true).2.1 (by decide)
  · exact (claim_C3_validation_no_submit
      { sampleRoutingState with bindingFormData := ⟨"k", [], true⟩ }
      sampleRateLimitsState true).2.2.1 (by decide) (by decide)
  · exact (claim_C3_validation_no_submit sampleRoutingState
      { sampleRateLimitsState with
          formData := { RateLimitsPage.emptyConfigForm with key := " " } }
      true).2.2.2 (by decide)

/-- C9: Invoking the strategy-change action with the already-selected
strategy, or while the session is not connected, issues no network
request and leaves the whole state (including the saving flag) unchanged;
a request is issued exactly when the new strategy differs from the
current one and the session is connected. -/
theorem claim_C9_strategy_change_noop :
    ∀ (connected : Bool) (st : RoutingPage.State) (ns : RoutingStrategy) (ok : Bool),
      ((ns = st.strategy ∨ connected = false) →
        RoutingPage.handleStrategyChange connected st ns ok =
          { state := st, requests := [], notices := [] }) ∧
      ((RoutingPage.handleStrategyChange connected st ns ok).requests ≠ [] ↔
        (ns ≠ st.strategy ∧ connected = true)) := by
  intro connected st ns ok
  by_cases h : ns = st.strategy ∨ connected = false
  · refine ⟨fun _ => by simp [RoutingPage.handleStrategyChange, h], ?_⟩
    have hne : ¬(ns ≠ st.strategy ∧ connected = true) := by
      rcases h with h | h
      · exact fun hc => hc.1 h
      · exact fun hc => by rw [h] at hc; exact Bool.false_ne_true hc.2
    simp [RoutingPage.handleStrategyChange, h, hne]
  · push_neg at h
    obtain ⟨h1, h2⟩ := h
    have h2' : connected = true := by
      cases connected
      · exact absurd rfl h2
      · rfl
    refine ⟨fun hc => ?_, ?_⟩
    · rcases hc with hc | hc
      · exact absurd hc h1
      · exact absurd hc h2
    · cases ok <;>
        simp [RoutingPage.handleStrategyChange, h1, h2, h2']

/-- Witness for C9: same-strategy and disconnected invocations at the
sample state. -/
theorem claim_C9_witness :
    (RoutingPage.handleStrategyChange true sampleRoutingState .round_robin true =
      { state := sampleRoutingState, requests := [], notices := [] }) ∧
    (RoutingPage.handleStrategyChange false sampleRoutingState .fill_first true =
      { state := sampleRoutingState, requests := [], notices := [] }) := by
  constructor
  · exact (claim_C9_strategy_change_noop true sampleRoutingState .round_robin
      true).1 (by decide)
  · exact (claim_C9_strategy_change_noop false sampleRoutingState .fill_first
      true).1 (by decide)

/-- C2: For every string s and every current tag list, the tag-editor add
operation (rule form and key-config form) leaves the list unchanged iff
trim(s) is empty or trim(s) is already present in the list under
case-sensitive exact equality; otherwise the resulting list is the
original list with exactly one element, trim(s), appended at the end. -/
theorem claim_C2_tag_add :
    ∀ (f : RoutingPage.RuleFormData) (field : RoutingPage.RuleTagField)
      (g : RateLimitsPage.ConfigFormData) (gfield : RateLimitsPage.ConfigTagField)
      (s : String),
      ((RoutingPage.handleAddTag f field s).1.tagList field =
          (if jsTrim s = "" ∨ jsTrim s ∈ f.tagList field then f.tagList field
           else f.tagList field ++ [jsTrim s]) ∧
        ((RoutingPage.handleAddTag f field s).1.tagList field = f.tagList field ↔
          jsTrim s = "" ∨ jsTrim s ∈ f.tagList field)) ∧
      ((RateLimitsPage.handleAddTag g gfield s).1.tagList gfield =
          (if jsTrim s = "" ∨ jsTrim s ∈ g.tagList gfield then g.tagList gfield
           else g.tagList gfield ++ [jsTrim s]) ∧
        ((RateLimitsPage.handleAddTag g gfield s).1.tagList gfield = g.tagList gfield ↔
          jsTrim s = "" ∨ jsTrim s ∈ g.tagList gfield)) := by
  intro f field g gfield s
  constructor
  · by_cases h1 : jsTrim s = ""
    · simp [RoutingPage.handleAddTag, h1]
    · by_cases h2 : jsTrim s ∈ f.tagList field
      · simp [RoutingPage.handleAddTag, h1, h2]
      · have hne := append_singleton_ne (f.tagList field) (jsTrim s)
        simp [RoutingPage.handleAddTag, h1, h2, RoutingPage.ruleTagList_setTagList, hne]
  · by_cases h1 : jsTrim s = ""
    · simp [RateLimitsPage.handleAddTag, h1]
    · by_cases h2 : jsTrim s ∈ g.tagList gfield
      · simp [RateLimitsPage.handleAddTag, h1, h2]
      · have hne := append_singleton_ne (g.tagList gfield) (jsTrim s)
        simp [RateLimitsPage.handleAddTag, h1, h2, RateLimitsPage.configTagList_setTagList, hne]

/-- C8: For every tag list and every index, the tag-editor remove
operation with an in-range index yields the list with exactly the element
at that position removed, all other elements keeping their relative
order; an out-of-range index (negative or at least the length) leaves the
form unchanged. -/
theorem claim_C8_tag_remove :
    ∀ (f : RoutingPage.RuleFormData) (field : RoutingPage.RuleTagField)
      (k : Nat) (index : Int),
      (k < (f.tagList field).length →
        (RoutingPage.handleRemoveTag f field (k : Int)).tagList field =
          (f.tagList field).take k ++ (f.tagList field).drop (k + 1)) ∧
      ((index < 0 ∨ ((f.tagList field).length : Int) ≤ index) →
        RoutingPage.handleRemoveTag f field index = f) := by
  intro f field k index
  constructor
  · intro h
    simp only [RoutingPage.handleRemoveTag]
    rw [RoutingPage.ruleTagList_setTagList, filterOutIdx_in_range _ k h]
  · intro h
    simp only [RoutingPage.handleRemoveTag]
    rw [filterOutIdx_out_of_range _ _ h, RoutingPage.ruleSetTagList_self]

/-- Witness for C8 at a concrete three-element list with indices 1 and 5. -/
theorem claim_C8_witness :
    (RoutingPage.handleRemoveTag ⟨["a", "b", "c"], [], true⟩ .models
        ((1 : Nat) : Int)).tagList .models =
      ["a", "b", "c"].take 1 ++ ["a", "b", "c"].drop 2 ∧
    RoutingPage.handleRemoveTag ⟨["a", "b", "c"], [], true⟩ .models 5 =
      ⟨["a", "b", "c"], [], true⟩ := by
  constructor
  · exact (claim_C8_tag_remove ⟨["a", "b", "c"], [], true⟩ .models 1 5).1 (by decide)
  · exact (claim_C8_tag_remove ⟨["a", "b", "c"], [], true⟩ .models 1 5).2 (by decide)

/-- C10: For every non-blank input whose trimmed value is already present
in the tag list, the add operation still clears the pending input buffer
to the empty string although the list is unchanged; the buffer is left
untouched exactly when the trimmed input is empty. -/
theorem claim_C10_tag_add_buffer :
    ∀ (f : RoutingPage.RuleFormData) (field : RoutingPage.RuleTagField)
      (g : RateLimitsPage.ConfigFormData) (gfield : RateLimitsPage.ConfigTagField)
      (s : String),
      ((RoutingPage.handleAddTag f field s).2 = (if jsTrim s = "" then s else "")) ∧
      (jsTrim s ≠ "" → jsTrim s ∈ f.tagList field →
        (RoutingPage.handleAddTag f field s).1 = f ∧
          (RoutingPage.handleAddTag f field s).2 = "") ∧
      ((RateLimitsPage.handleAddTag g gfield s).2 = (if jsTrim s = "" then s else "")) ∧
      (jsTrim s ≠ "" → jsTrim s ∈ g.tagList gfield →
        (RateLimitsPage.handleAddTag g gfield s).1 = g ∧
          (RateLimitsPage.handleAddTag g gfield s).2 = "") := by
  intro f field g gfield s
  by_cases h1 : jsTrim s = ""
  · simp [RoutingPage.handleAddTag, RateLimitsPage.handleAddTag, h1]
  · refine ⟨?_, ?_, ?_, ?_⟩
    · simp [RoutingPage.handleAddTag, h1]
    · intro _ h2
      simp [RoutingPage.handleAddTag, h1, h2]
    · simp [RateLimitsPage.handleAddTag, h1]
    · intro _ h2
      simp [RateLimitsPage.handleAddTag, h1, h2]

/-- Witness for C10 at the duplicate input " a " against the list ["a"]. -/
theorem claim_C10_witness :
    ((RoutingPage.handleAddTag ⟨["a"], [], true⟩ .models " a ").1 = ⟨["a"], [], true⟩ ∧
      (RoutingPage.handleAddTag ⟨["a"], [], true⟩ .models " a ").2 = "") ∧
    ((RateLimitsPage.handleAddTag ⟨"", "", "", "", "", ["a"], []⟩
        .allowedProviders " a ").1 = ⟨"", "", "", "", "", ["a"], []⟩ ∧
      (RateLimitsPage.handleAddTag ⟨"", "", "", "", "", ["a"], []⟩
        .allowedProviders " a ").2 = "") := by
  constructor
  · exact (claim_C10_tag_add_buffer ⟨["a"], [], true⟩ .models
      ⟨"", "", "", "", "", ["a"], []⟩ .allowedProviders " a ").2.1
      (by decide) (by decide)
  · exact (claim_C10_tag_add_buffer ⟨["a"], [], true⟩ .models
      ⟨"", "", "", "", "", ["a"], []⟩ .allowedProviders " a ").2.2.2
      (by decide) (by decide)

/-- C6: Toggling enabled issues exactly one PUT to the global
rate-limiting resource whose payload carries the last-loaded-or-saved
exceeded-status-code and persistence-path values unchanged — the unsaved
draft inputs play no role in the payload — and on success only the
enabled field of the local rate-limiting state changes. -/
theorem claim_C6_toggle_enabled :
    ∀ (st : RateLimitsPage.State) (ok : Bool) (a b : String),
      st.saving = false →
      ((RateLimitsPage.handleToggleEnabled true st ok).requests =
          [.putRateLimiting
            { st.rateLimiting with enabled := !st.rateLimiting.enabled }]) ∧
      ((RateLimitsPage.handleToggleEnabled true
            { st with statusCodeInput := a, persistencePathInput := b } ok).requests =
        (RateLimitsPage.handleToggleEnabled true st ok).requests) ∧
      (ok = true →
        (RateLimitsPage.handleToggleEnabled true st ok).state =
          { st with
              rateLimiting :=
                { st.rateLimiting with enabled := !st.rateLimiting.enabled } }) := by
  intro st ok a b hsav
  refine ⟨?_, ?_, ?_⟩
  · cases ok <;> simp [RateLimitsPage.handleToggleEnabled]
  · cases ok <;> simp [RateLimitsPage.handleToggleEnabled]
  · intro hok
    subst hok
    cases st
    simp only [RateLimitsPage.handleToggleEnabled] at hsav ⊢
    simp_all

/-- Witness for C6 at the sample rate-limits state with draft edits. -/
theorem claim_C6_witness :
    ((RateLimitsPage.handleToggleEnabled true sampleRateLimitsState true).requests =
      [.putRateLimiting
        { sampleRateLimitsState.rateLimiting with
            enabled := !sampleRateLimitsState.rateLimiting.enabled }]) ∧
    ((RateLimitsPage.handleToggleEnabled true
          { sampleRateLimitsState with
              statusCodeInput := "503", persistencePathInput := "/tmp/x" }
          true).requests =
      (RateLimitsPage.handleToggleEnabled true sampleRateLimitsState true).requests) ∧
    (true = true →
      (RateLimitsPage.handleToggleEnabled true sampleRateLimitsState true).state =
        { sampleRateLimitsState with
            rateLimiting :=
              { sampleRateLimitsState.rateLimiting with
                  enabled := !sampleRateLimitsState.rateLimiting.enabled } }) :=
  claim_C6_toggle_enabled sampleRateLimitsState true "503" "/tmp/x" (by decide)

/-- C7: During the initial load of the rate-limits screen, a failed fetch
slice is replaced by its default — unreachable global rate-limiting
config yields enabled=true, unreachable key-config list the empty list,
unreachable usage the empty map — while the other slices keep their
fetched values, and no slice failure makes the whole load fail (the page
error stays empty). -/
theorem claim_C7_load_slice_defaults :
    ∀ (st : RateLimitsPage.State) (c : ApiKeyConfigsResponse)
      (r : RateLimitingConfig) (u : ApiKeyUsageResponse)
      (co : Option ApiKeyConfigsResponse) (ro : Option RateLimitingConfig)
      (uo : Option ApiKeyUsageResponse),
      ((RateLimitsPage.loadData none ro uo st).configs = [] ∧
        (RateLimitsPage.loadData (some c) ro uo st).configs =
          c.api_key_configs.getD []) ∧
      ((RateLimitsPage.loadData co none uo st).rateLimiting =
          { enabled := true, exceeded_status_code := none
            persistence_path := none } ∧
        (RateLimitsPage.loadData co (some r) uo st).rateLimiting = r) ∧
      ((RateLimitsPage.loadData co ro none st).usage = [] ∧
        (RateLimitsPage.loadData co ro (some u) st).usage = u.usage.getD []) ∧
      (RateLimitsPage.loadData co ro uo st).error = "" := by
  intro st c r u co ro uo
  refine ⟨⟨?_, ?_⟩, ⟨?_, ?_⟩, ⟨?_, ?_⟩, ?_⟩ <;>
    simp [RateLimitsPage.loadData]

/-- C4: The submitted ApiKeyConfig omits the limits field entirely when
all four numeric limit inputs are blank; otherwise its limits object
contains exactly the subset of the four limit fields whose inputs were
non-blank, each parsed as an integer, and a blank input is never sent as
zero; a valid non-editing submit POSTs exactly this config. -/
theorem claim_C4_limits_omission :
    ∀ (f : RateLimitsPage.ConfigFormData) (st : RateLimitsPage.State) (ok : Bool),
      (((RateLimitsPage.configOfForm f).limits = none ↔
          f.requestsPerDay = "" ∧ f.requestsPerMonth = "" ∧
            f.tokensPerDay = "" ∧ f.tokensPerMonth = "") ∧
        ((RateLimitsPage.configOfForm f).limits.bind ApiKeyLimits.requests_per_day =
          if f.requestsPerDay = "" then none
          else some (jsParseInt f.requestsPerDay)) ∧
        ((RateLimitsPage.configOfForm f).limits.bind ApiKeyLimits.requests_per_month =
          if f.requestsPerMonth = "" then none
          else some (jsParseInt f.requestsPerMonth)) ∧
        ((RateLimitsPage.configOfForm f).limits.bind ApiKeyLimits.tokens_per_day =
          if f.tokensPerDay = "" then none
          else some (jsParseInt f.tokensPerDay)) ∧
        ((RateLimitsPage.configOfForm f).limits.bind ApiKeyLimits.tokens_per_month =
          if f.tokensPerMonth = "" then none
          else some (jsParseInt f.tokensPerMonth))) ∧
      (jsTrim st.formData.key ≠ "" → st.editingKey = none →
        (RateLimitsPage.handleSave st ok).requests =
          [.postConfig (RateLimitsPage.configOfForm st.formData)]) := by
  intro f st ok
  constructor
  · by_cases h1 : f.requestsPerDay = "" <;>
      by_cases h2 : f.requestsPerMonth = "" <;>
        by_cases h3 : f.tokensPerDay = "" <;>
          by_cases h4 : f.tokensPerMonth = "" <;>
            simp [RateLimitsPage.configOfForm, RateLimitsPage.buildLimits,
              RateLimitsPage.limitsKeyCount, h1, h2, h3, h4]
  · intro hk he
    cases ok <;> simp [RateLimitsPage.handleSave, hk, he]

/-- Witness for C4 at a form with two blank and two non-blank inputs. -/
theorem claim_C4_witness :
    ((RateLimitsPage.configOfForm ⟨"key1", "10", "", "30", "", [], []⟩).limits.bind
        ApiKeyLimits.requests_per_day = some (jsParseInt "10")) ∧
    ((RateLimitsPage.configOfForm ⟨"key1", "10", "", "30", "", [], []⟩).limits.bind
        ApiKeyLimits.requests_per_month = none) ∧
    ((RateLimitsPage.handleSave
        { sampleRateLimitsState with
            formData := ⟨"key1", "10", "", "30", "", [], []⟩ } true).requests =
      [.postConfig
        (RateLimitsPage.configOfForm ⟨"key1", "10", "", "30", "", [], []⟩)]) := by
  refine ⟨?_, ?_, ?_⟩
  · have h := (claim_C4_limits_omission ⟨"key1", "10", "", "30", "", [], []⟩
      sampleRateLimitsState true).1.2.1
    simpa using h
  · have h := (claim_C4_limits_omission ⟨"key1", "10", "", "30", "", [], []⟩
      sampleRateLimitsState true).1.2.2.1
    simpa using h
  · exact (claim_C4_limits_omission ⟨"key1", "10", "", "30", "", [], []⟩
      { sampleRateLimitsState with
          formData := ⟨"key1", "10", "", "30", "", [], []⟩ } true).2
      (by decide) (by decide)

/-- Counterexample for C5 as stated: at used = 100 and limit = -1 (a
truthy, non-zero limit) the code produces -10000, while
clamp(round(used/limit*100), 0, 100) is 0 — the code performs no lower
clamp at 0. -/
theorem claim_C5_counterexample :
    RateLimitsPage.getUsagePercent 100 (some (-1)) = -10000 ∧
    max 0 (min 100 (jsRound ((100 : ℚ) / (-1) * 100))) = 0 := by
  have h : (100 : ℚ) / (-1) * 100 = ((-10000 : Int) : ℚ) := by norm_num
  constructor
  · simp only [RateLimitsPage.getUsagePercent]
    rw [if_neg (by norm_num : ¬(-1 : ℚ) = 0), h, jsRound_intCast]
    decide
  · rw [h, jsRound_intCast]
    decide

/-- C5 amended: with a truthy non-zero limit the projection equals
min(100, round(used/limit*100)) — there is no lower clamp — which
coincides with clamp(round(used/limit*100), 0, 100) whenever used is
nonnegative and the limit positive; with an absent or zero limit it is 0
(never dividing by zero); used 450 against limit 500 yields 90 and the
high tier, which applies exactly when the percentage is at least 90. -/
theorem claim_C5_usage_percent_amended :
    ∀ (used limit : ℚ) (p : Int),
      (RateLimitsPage.getUsagePercent used none = 0) ∧
      (RateLimitsPage.getUsagePercent used (some 0) = 0) ∧
      (limit ≠ 0 → RateLimitsPage.getUsagePercent used (some limit) =
        min 100 (jsRound (used / limit * 100))) ∧
      (0 ≤ used → 0 < limit →
        RateLimitsPage.getUsagePercent used (some limit) =
          max 0 (min 100 (jsRound (used / limit * 100)))) ∧
      (RateLimitsPage.getUsagePercent 450 (some 500) = 90) ∧
      (RateLimitsPage.getUsageClass
          (RateLimitsPage.getUsagePercent 450 (some 500)) = .high) ∧
      (RateLimitsPage.getUsageClass p = .high ↔ 90 ≤ p) := by
  intro used limit p
  have h450 : RateLimitsPage.getUsagePercent 450 (some 500) = 90 := by
    simp only [RateLimitsPage.getUsagePercent]
    rw [if_neg (by norm_num : ¬(500 : ℚ) = 0),
      (by norm_num : (450 : ℚ) / 500 * 100 = ((90 : Int) : ℚ)), jsRound_intCast]
    decide
  refine ⟨by simp [RateLimitsPage.getUsagePercent],
    by simp [RateLimitsPage.getUsagePercent], ?_, ?_, h450, ?_, ?_⟩
  · intro h
    simp [RateLimitsPage.getUsagePercent, h]
  · intro hu hl
    have hl0 : limit ≠ 0 := ne_of_gt hl
    have hq : 0 ≤ used / limit * 100 := by positivity
    have hr : 0 ≤ jsRound (used / limit * 100) := jsRound_nonneg _ hq
    have hmin : 0 ≤ min 100 (jsRound (used / limit * 100)) :=
      le_min (by norm_num) hr
    simp [RateLimitsPage.getUsagePercent, hl0, max_eq_right hmin]
  · rw [h450]
    decide
  · by_cases h : 90 ≤ p
    · simp [RateLimitsPage.getUsageClass, h]
    · by_cases h2 : 70 ≤ p <;> simp [RateLimitsPage.getUsageClass, h, h2]

/-- Witness for C5 amended: the clamp form holds at used 450, limit 500. -/
theorem claim_C5_witness :
    RateLimitsPage.getUsagePercent 450 (some 500) =
      max 0 (min 100 (jsRound ((450 : ℚ) / 500 * 100))) :=
  (claim_C5_usage_percent_amended 450 500 0).2.2.2.1 (by norm_num) (by norm_num)

end CliProxy
